import Mathlib

/-!
Shallow embedding of the gamified task-manager core (task, user, achievement
and category services plus the relevant handler flows), with theorems checking
the specified properties against the embedded code.
-/

namespace TaskBot

/-- Task priorities (database/models.py, class TaskPriority, a str-enum). -/
inductive TaskPriority where
  | low
  | medium
  | high
  | critical
deriving DecidableEq

/-- String value of the str-enum member: TaskPriority.LOW.value = "low", etc. -/
def TaskPriority.val : TaskPriority → String
  | .low => "low"
  | .medium => "medium"
  | .high => "high"
  | .critical => "critical"

/-- Member name as persisted by the SQLAlchemy Enum column (the default
persists member names LOW/MEDIUM/HIGH/CRITICAL as text in SQLite). -/
def TaskPriority.storedName : TaskPriority → String
  | .low => "LOW"
  | .medium => "MEDIUM"
  | .high => "HIGH"
  | .critical => "CRITICAL"

/-- Task statuses (database/models.py, class TaskStatus). -/
inductive TaskStatus where
  | todo
  | in_progress
  | done
  | cancelled
deriving DecidableEq

/-- User row: the progression-relevant columns of database/models.py User. -/
structure UserRec where
  level : Nat
  experience : Nat
  completed_tasks : Nat
deriving DecidableEq

/-- Kernel-computable integer square root: scan upward while the next square
still fits. Fuel is the input itself, which always suffices. -/
def isqrt_go (n : Nat) : Nat → Nat → Nat
  | 0, k => k
  | fuel + 1, k => if (k + 1) * (k + 1) ≤ n then isqrt_go n fuel (k + 1) else k

def isqrt (n : Nat) : Nat := isqrt_go n n 0

lemma isqrt_go_spec (n : Nat) : ∀ (fuel k : Nat), k * k ≤ n →
    n < (k + fuel + 1) * (k + fuel + 1) →
    isqrt_go n fuel k * isqrt_go n fuel k ≤ n ∧
      n < (isqrt_go n fuel k + 1) * (isqrt_go n fuel k + 1) := by
  intro fuel
  induction fuel with
  | zero =>
      intro k hk hub
      simpa [isqrt_go] using ⟨hk, by simpa using hub⟩
  | succ m ih =>
      intro k hk hub
      unfold isqrt_go
      by_cases hstep : (k + 1) * (k + 1) ≤ n
      · simpa [hstep] using ih (k + 1) hstep (by nlinarith)
      · simpa [hstep] using ⟨hk, by omega⟩

lemma isqrt_eq_sqrt (n : Nat) : isqrt n = Nat.sqrt n := by
  have h := isqrt_go_spec n n 0 (by simp) (by nlinarith)
  rw [Nat.eq_sqrt]
  simpa [isqrt] using ⟨h.1, h.2⟩

/-- Level threshold from UserService.add_experience, int(100 * level ** 1.5):
the floor of 100 * level^1.5, realized exactly as the integer square root of
10000 * level^3. -/
def next_level_xp (level : Nat) : Nat := isqrt (10000 * level ^ 3)

lemma next_level_xp_eq_sqrt (level : Nat) :
    next_level_xp level = Nat.sqrt (10000 * level ^ 3) := by
  simp [next_level_xp, isqrt_eq_sqrt]

/-- UserService.add_experience: add the xp, then a single conditional
level-up against the threshold computed from the current level. -/
def add_experience (u : UserRec) (xp : Nat) : UserRec :=
  let e := u.experience + xp
  if next_level_xp u.level ≤ e then
    { u with experience := e, level := u.level + 1 }
  else
    { u with experience := e }

lemma add_experience_spec (u : UserRec) (xp : Nat) :
    (add_experience u xp).experience = u.experience + xp ∧
    (add_experience u xp).completed_tasks = u.completed_tasks ∧
    (add_experience u xp).level =
      (if next_level_xp u.level ≤ u.experience + xp then u.level + 1 else u.level) := by
  unfold add_experience
  by_cases h : next_level_xp u.level ≤ u.experience + xp
  · simp [h]
  · simp [h]

/-- Task row: the columns of database/models.py Task. Dates and datetimes are
abstract day and tick counters. -/
structure TaskRec where
  id : Nat
  user_id : Nat
  title : String
  description : Option String
  priority : TaskPriority
  status : TaskStatus
  category_id : Option Nat
  created_at : Nat
  due_date : Option Nat
  completed_at : Option Nat
  xp_reward : Nat
  is_important : Bool
deriving DecidableEq

/-- TaskService._calculate_xp_reward. The source compares the argument with
the str-enum members, which for a str-enum is string-value equality, so any
unrecognized value falls through to the final 10. -/
def calculate_xp_reward (priority : String) : Nat :=
  if priority = "low" then 5
  else if priority = "medium" then 10
  else if priority = "high" then 20
  else if priority = "critical" then 30
  else 10

/-- TaskService.create_task: builds the row with status todo, the xp reward
from the priority table, and is_important for high or critical priority. The
id and created_at are supplied by the database and the clock. -/
def create_task (user_id : Nat) (title : String) (description : Option String)
    (priority : TaskPriority) (due_date : Option Nat) (category_id : Option Nat)
    (id created_at : Nat) : TaskRec :=
  { id := id
    user_id := user_id
    title := title
    description := description
    priority := priority
    status := TaskStatus.todo
    category_id := category_id
    created_at := created_at
    due_date := due_date
    completed_at := none
    xp_reward := calculate_xp_reward priority.val
    is_important := priority == TaskPriority.high || priority == TaskPriority.critical }

/-- TaskService.get_task_by_id: the row whose id and user_id both match. -/
def get_task_by_id (tasks : List TaskRec) (task_id user_id : Nat) : Option TaskRec :=
  tasks.find? (fun t => t.id == task_id && t.user_id == user_id)

/-- Commit of a mutated row: every row with the same primary key (unique in a
table) is replaced by the new value. -/
def save_task (tasks : List TaskRec) (t : TaskRec) : List TaskRec :=
  tasks.map (fun x => if x.id == t.id then t else x)

/-- TaskService.complete_task: on the found row, set status done and overwrite
completed_at with the current time; no status precondition is checked. -/
def complete_task (tasks : List TaskRec) (task_id user_id now : Nat) :
    Option TaskRec × List TaskRec :=
  match get_task_by_id tasks task_id user_id with
  | none => (none, tasks)
  | some t =>
      let t2 := { t with status := TaskStatus.done, completed_at := some now }
      (some t2, save_task tasks t2)

/-- TaskService.set_task_in_progress: set status in_progress on the found row. -/
def set_task_in_progress (tasks : List TaskRec) (task_id user_id : Nat) :
    Option TaskRec × List TaskRec :=
  match get_task_by_id tasks task_id user_id with
  | none => (none, tasks)
  | some t =>
      let t2 := { t with status := TaskStatus.in_progress }
      (some t2, save_task tasks t2)

/-- TaskService.cancel_task: set status cancelled on the found row. -/
def cancel_task (tasks : List TaskRec) (task_id user_id : Nat) :
    Option TaskRec × List TaskRec :=
  match get_task_by_id tasks task_id user_id with
  | none => (none, tasks)
  | some t =>
      let t2 := { t with status := TaskStatus.cancelled }
      (some t2, save_task tasks t2)

/-- Column and relation names a Task row answers hasattr for (the mapped
columns of database/models.py Task). -/
def task_attrs : List String :=
  ["id", "user_id", "title", "description", "priority", "status", "category_id",
   "created_at", "due_date", "completed_at", "xp_reward", "is_important"]

/-- One entry of the update_data dict passed to TaskService.update_task: a key
with a value of the matching column type, or an arbitrary key naming no
column. -/
inductive FieldUpdate where
  | title (v : String)
  | description (v : Option String)
  | priority (v : TaskPriority)
  | status (v : TaskStatus)
  | category_id (v : Option Nat)
  | created_at (v : Nat)
  | due_date (v : Option Nat)
  | completed_at (v : Option Nat)
  | xp_reward (v : Nat)
  | is_important (v : Bool)
  | user_id (v : Nat)
  | unknown_key (k : String)
deriving DecidableEq

/-- Dict key of the entry. -/
def FieldUpdate.key : FieldUpdate → String
  | .title _ => "title"
  | .description _ => "description"
  | .priority _ => "priority"
  | .status _ => "status"
  | .category_id _ => "category_id"
  | .created_at _ => "created_at"
  | .due_date _ => "due_date"
  | .completed_at _ => "completed_at"
  | .xp_reward _ => "xp_reward"
  | .is_important _ => "is_important"
  | .user_id _ => "user_id"
  | .unknown_key k => k

/-- Effect of setattr(task, field, value) for a column-typed entry. -/
def apply_field (t : TaskRec) : FieldUpdate → TaskRec
  | .title v => { t with title := v }
  | .description v => { t with description := v }
  | .priority v => { t with priority := v }
  | .status v => { t with status := v }
  | .category_id v => { t with category_id := v }
  | .created_at v => { t with created_at := v }
  | .due_date v => { t with due_date := v }
  | .completed_at v => { t with completed_at := v }
  | .xp_reward v => { t with xp_reward := v }
  | .is_important v => { t with is_important := v }
  | .user_id v => { t with user_id := v }
  | .unknown_key _ => t

/-- Body of the update loop in TaskService.update_task: setattr guarded by
hasattr, so a key naming no Task attribute is silently skipped. -/
def set_field (t : TaskRec) (u : FieldUpdate) : TaskRec :=
  if task_attrs.contains u.key then apply_field t u else t

/-- TaskService.update_task: find the owned row, apply every update_data entry
in order through the hasattr/setattr loop, commit. -/
def update_task (tasks : List TaskRec) (task_id user_id : Nat)
    (update_data : List FieldUpdate) : Option TaskRec × List TaskRec :=
  match get_task_by_id tasks task_id user_id with
  | none => (none, tasks)
  | some t =>
      let t2 := update_data.foldl set_field t
      (some t2, save_task tasks t2)

/-- Handler process_new_task_priority (handlers/tasks.py): the priority-edit
flow recomputes xp_reward from the table but computes is_important as equality
with HIGH alone, then calls update_task with the three entries. -/
def process_new_task_priority (tasks : List TaskRec) (task_id user_id : Nat)
    (p : TaskPriority) : Option TaskRec × List TaskRec :=
  let new_xp_reward := calculate_xp_reward p.val
  let is_important := p == TaskPriority.high
  update_task tasks task_id user_id
    [FieldUpdate.priority p, FieldUpdate.xp_reward new_xp_reward,
     FieldUpdate.is_important is_important]

/-- Byte-wise lexicographic comparison, as SQLite compares text with the
default BINARY collation. -/
def lexLt : List Char → List Char → Bool
  | [], [] => false
  | [], _ :: _ => true
  | _ :: _, [] => false
  | a :: as, b :: bs => if a < b then true else if b < a then false else lexLt as bs

/-- TaskService.get_tasks_due_today: the user's rows due today with status
todo or in_progress, ordered by the priority column descending; the column
stores the enum member name, so the order key is that text. -/
def get_tasks_due_today (tasks : List TaskRec) (user_id today : Nat) : List TaskRec :=
  let matching := tasks.filter (fun t =>
    t.user_id == user_id && t.due_date == some today &&
    (t.status == TaskStatus.todo || t.status == TaskStatus.in_progress))
  List.insertionSort
    (fun a b => lexLt a.priority.storedName.data b.priority.storedName.data = false)
    matching

/-- Achievement definition row (database/models.py Achievement). -/
structure Achievement where
  id : Nat
  name : String
  condition_type : String
  condition_value : Nat
  xp_reward : Nat
deriving DecidableEq

/-- State the achievement service reads and writes for one user: the user row,
the task table, the achievement definitions (in table order) and this user's
unlocked achievement ids (in insertion order). -/
structure AState where
  user_id : Nat
  user : UserRec
  tasks : List TaskRec
  achievements : List Achievement
  unlocked : List Nat
deriving DecidableEq

/-- Count of this user's tasks with status done. -/
def count_done (st : AState) : Nat :=
  (st.tasks.filter (fun t => t.user_id == st.user_id &&
    t.status == TaskStatus.done)).length

/-- Count of this user's done and important tasks. -/
def count_done_important (st : AState) : Nat :=
  (st.tasks.filter (fun t => t.user_id == st.user_id &&
    t.status == TaskStatus.done && t.is_important)).length

/-- AchievementService._check_achievement_condition: threshold check per
condition type; any other type is never satisfied. -/
def check_achievement_condition (st : AState) (a : Achievement) : Bool :=
  if a.condition_type = "tasks_count" then
    a.condition_value ≤ count_done st
  else if a.condition_type = "level" then
    a.condition_value ≤ st.user.level
  else if a.condition_type = "important_tasks" then
    a.condition_value ≤ count_done_important st
  else
    false

/-- AchievementService.unlock_achievement: nothing happens if the pair already
exists or the achievement id names no definition; otherwise the join row is
inserted and the bonus xp credited through add_experience. -/
def unlock_achievement (st : AState) (achievement_id : Nat) : Option Nat × AState :=
  if achievement_id ∈ st.unlocked then
    (none, st)
  else
    match st.achievements.find? (fun a => a.id == achievement_id) with
    | none => (none, st)
    | some a =>
        (some achievement_id,
         { st with
            unlocked := st.unlocked ++ [achievement_id]
            user := add_experience st.user a.xp_reward })

/-- Loop body of AchievementService.check_achievements: the unlocked-id list
is the snapshot taken before the loop, while each condition is evaluated
against the current state, which earlier unlocks in the same call mutate. -/
def check_loop (unlocked_ids : List Nat) :
    List Achievement → List Achievement × AState → List Achievement × AState
  | [], acc => acc
  | a :: rest, (newly, st) =>
      if a.id ∈ unlocked_ids then
        check_loop unlocked_ids rest (newly, st)
      else if check_achievement_condition st a then
        check_loop unlocked_ids rest (newly ++ [a], (unlock_achievement st a.id).2)
      else
        check_loop unlocked_ids rest (newly, st)

/-- AchievementService.check_achievements: returns the newly unlocked
achievements and the resulting state. -/
def check_achievements (st : AState) : List Achievement × AState :=
  check_loop st.unlocked st.achievements ([], st)

/-- Category row (database/models.py TaskCategory). -/
structure CategoryRec where
  id : Nat
  user_id : Nat
  name : String
  color : String
  created_at : Nat
deriving DecidableEq

/-- TaskService.get_category_by_id: the row whose id and user_id both match. -/
def get_category_by_id (categories : List CategoryRec) (category_id user_id : Nat) :
    Option CategoryRec :=
  categories.find? (fun c => c.id == category_id && c.user_id == user_id)

/-- Loop body of TaskService.delete_category: clear the reference of a task
pointing at the deleted category, leave every other task alone. -/
def clear_category_ref (category_id : Nat) (t : TaskRec) : TaskRec :=
  if t.category_id == some category_id then { t with category_id := none } else t

/-- TaskService.delete_category: find the owned category; clear category_id on
every task referencing it (the query has no user filter), then delete the
category row itself. -/
def delete_category (categories : List CategoryRec) (tasks : List TaskRec)
    (category_id user_id : Nat) : Bool × List CategoryRec × List TaskRec :=
  match get_category_by_id categories category_id user_id with
  | none => (false, categories, tasks)
  | some c =>
      (true, categories.filter (fun x => x.id != c.id),
       tasks.map (clear_category_ref category_id))

/-- Rejection cases of the title prompt in handlers/tasks.py
process_task_title. -/
inductive TitleError where
  | empty_title
  | too_long
deriving DecidableEq

/-- Python str.strip: drop leading and trailing whitespace characters. -/
def stripChars (l : List Char) : List Char :=
  ((l.dropWhile Char.isWhitespace).reverse.dropWhile Char.isWhitespace).reverse

def py_strip (s : String) : String := String.mk (stripChars s.data)

/-- Handler process_task_title: reject an empty or whitespace-only text, then
reject a raw text longer than 200 characters, otherwise keep the stripped
text as the title. -/
def process_task_title (text : String) : Except TitleError String :=
  if text = "" ∨ py_strip text = "" then Except.error TitleError.empty_title
  else if 200 < text.length then Except.error TitleError.too_long
  else Except.ok (py_strip text)

/-- Exposed creation flow: the title prompt feeds TaskService.create_task; on
a rejected title no task is created. -/
def create_task_flow (user_id : Nat) (text : String) (description : Option String)
    (priority : TaskPriority) (due_date category_id : Option Nat) (id created_at : Nat)
    (tasks : List TaskRec) : Except TitleError (TaskRec × List TaskRec) :=
  match process_task_title text with
  | Except.error e => Except.error e
  | Except.ok title =>
      let t := create_task user_id title description priority due_date category_id id created_at
      Except.ok (t, tasks ++ [t])

/-- C1: add_experience sets experience to the old value plus xp and then, when
the new experience reaches the threshold floor(100 * level^1.5), increments
level by exactly 1; below the threshold the level is unchanged, and the level
never grows by more than 1 in a single call. -/
theorem C1_add_experience_single_level_up (u : UserRec) (xp : Nat) :
    (add_experience u xp).experience = u.experience + xp ∧
    next_level_xp u.level = Nat.sqrt (10000 * u.level ^ 3) ∧
    (next_level_xp u.level ≤ u.experience + xp →
      (add_experience u xp).level = u.level + 1) ∧
    (u.experience + xp < next_level_xp u.level →
      (add_experience u xp).level = u.level) ∧
    (add_experience u xp).level ≤ u.level + 1 := by
  obtain ⟨h1, h2, h3⟩ := add_experience_spec u xp
  refine ⟨h1, next_level_xp_eq_sqrt u.level, ?_, ?_, ?_⟩
  · intro h
    rw [h3, if_pos h]
  · intro h
    rw [h3, if_neg (by omega)]
  · rw [h3]
    split <;> omega

/-- Witness for C1 at level 1, experience 0 and a 500 xp grant. -/
theorem C1_add_experience_single_level_up_witness :
    (add_experience ⟨1, 0, 0⟩ 500).experience = 0 + 500 ∧
    (add_experience ⟨1, 0, 0⟩ 500).level = 1 + 1 :=
  ⟨(C1_add_experience_single_level_up ⟨1, 0, 0⟩ 500).1,
   (C1_add_experience_single_level_up ⟨1, 0, 0⟩ 500).2.2.1 (by decide)⟩

/-- C4 counterexample: at level 1 with stored experience 100 already at the
threshold, add_experience with xp = 0 raises the level from 1 to 2, so xp = 0
is not a no-op on level. -/
theorem C4_counterexample :
    (add_experience ⟨1, 100, 0⟩ 0).level = 2 ∧
    ¬ (add_experience ⟨1, 100, 0⟩ 0).level = 1 := by decide

/-- C4 amended: add_experience with xp = 0 leaves experience unchanged and
leaves level unchanged when the stored experience is below the threshold
floor(100 * level^1.5); when the stored experience already meets the
threshold, the call still increments level by 1. -/
theorem C4_zero_xp_amended (u : UserRec) :
    (add_experience u 0).experience = u.experience ∧
    (u.experience < next_level_xp u.level → (add_experience u 0).level = u.level) ∧
    (next_level_xp u.level ≤ u.experience → (add_experience u 0).level = u.level + 1) := by
  obtain ⟨h1, h2, h3⟩ := add_experience_spec u 0
  refine ⟨by simpa using h1, ?_, ?_⟩
  · intro h
    rw [h3, if_neg (by omega)]
  · intro h
    rw [h3, if_pos (by omega)]

/-- Witness for the amended C4 at level 1, experience 50. -/
theorem C4_zero_xp_amended_witness :
    (add_experience ⟨1, 50, 0⟩ 0).experience = 50 ∧
    (add_experience ⟨1, 50, 0⟩ 0).level = 1 :=
  ⟨(C4_zero_xp_amended ⟨1, 50, 0⟩).1,
   (C4_zero_xp_amended ⟨1, 50, 0⟩).2.1 (by decide)⟩

/-- C5: the xp reward is a pure function of the priority value — low 5,
medium 10, high 20, critical 30, anything unrecognized 10 — and create_task
stores exactly that reward and sets is_important precisely for high and
critical priorities. -/
theorem C5_xp_reward_table :
    calculate_xp_reward "low" = 5 ∧ calculate_xp_reward "medium" = 10 ∧
    calculate_xp_reward "high" = 20 ∧ calculate_xp_reward "critical" = 30 ∧
    (∀ s : String, s ≠ "low" → s ≠ "medium" → s ≠ "high" → s ≠ "critical" →
      calculate_xp_reward s = 10) ∧
    ∀ (user_id : Nat) (title : String) (description : Option String)
      (priority : TaskPriority) (due_date category_id : Option Nat) (id created_at : Nat),
      (create_task user_id title description priority due_date category_id
        id created_at).xp_reward = calculate_xp_reward priority.val ∧
      ((create_task user_id title description priority due_date category_id
        id created_at).is_important = true ↔
        (priority = TaskPriority.high ∨ priority = TaskPriority.critical)) := by
  refine ⟨by decide, by decide, by decide, by decide, ?_, ?_⟩
  · intro s h1 h2 h3 h4
    simp [calculate_xp_reward, h1, h2, h3, h4]
  · intro user_id title description priority due_date category_id id created_at
    refine ⟨rfl, ?_⟩
    cases priority <;> simp [create_task]

/-- Witness for C5: an unrecognized value gets 10, and a critical task is
created with reward 30 and the important flag. -/
theorem C5_xp_reward_table_witness :
    calculate_xp_reward "urgent" = 10 ∧
    (create_task 1 "Ship release" none TaskPriority.critical none none 1 0).xp_reward
      = calculate_xp_reward TaskPriority.critical.val ∧
    ((create_task 1 "Ship release" none TaskPriority.critical none none 1 0).is_important = true
      ↔ (TaskPriority.critical = TaskPriority.high ∨
         TaskPriority.critical = TaskPriority.critical)) :=
  ⟨C5_xp_reward_table.2.2.2.2.1 "urgent" (by decide) (by decide) (by decide) (by decide),
   (C5_xp_reward_table.2.2.2.2.2 1 "Ship release" none TaskPriority.critical none none 1 0).1,
   (C5_xp_reward_table.2.2.2.2.2 1 "Ship release" none TaskPriority.critical none none 1 0).2⟩

/-- Demo task for the priority-edit flow: a low-priority task, consistent
before the edit. -/
def c3_task : TaskRec :=
  { id := 1, user_id := 1, title := "demo", description := none,
    priority := TaskPriority.low, status := TaskStatus.todo, category_id := none,
    created_at := 0, due_date := none, completed_at := none, xp_reward := 5,
    is_important := false }

/-- C3: changing a task's priority to critical through the edit flow yields a
task whose priority is critical but whose is_important flag is false — the
handler computes the flag as equality with high alone, so the stated
invariant is broken right after the exposed priority edit. -/
theorem C3_critical_edit_clears_is_important :
    (process_new_task_priority [c3_task] 1 1 TaskPriority.critical).1 =
      some { c3_task with
              priority := TaskPriority.critical
              xp_reward := 30
              is_important := false } ∧
    (process_new_task_priority [c3_task] 1 1 TaskPriority.critical).1.map
      (fun t => t.is_important) = some false := by decide

/-- Demo task already in the terminal done state, completed at tick 5. -/
def c6_task : TaskRec :=
  { id := 1, user_id := 1, title := "demo", description := none,
    priority := TaskPriority.medium, status := TaskStatus.done, category_id := none,
    created_at := 0, due_date := none, completed_at := some 5, xp_reward := 10,
    is_important := false }

/-- C6 counterexample: on a task already done, cancel_task succeeds and moves
it to cancelled (neither NotFound nor a no-op), set_task_in_progress moves it
back to in_progress, and complete_task overwrites completed_at — terminal
states are not preserved by the exposed transitions. -/
theorem C6_counterexample :
    (cancel_task [c6_task] 1 1).1 = some { c6_task with status := TaskStatus.cancelled } ∧
    ¬ (cancel_task [c6_task] 1 1).1 = none ∧
    ¬ (cancel_task [c6_task] 1 1).1 = some c6_task ∧
    (set_task_in_progress [c6_task] 1 1).2 =
      [{ c6_task with status := TaskStatus.in_progress }] ∧
    (complete_task [c6_task] 1 1 7).1 = some { c6_task with completed_at := some 7 } := by
  decide

/-- C6 amended: the three status transitions check only id and ownership,
never the current status — on any found task, terminal or not, complete_task
sets status done and overwrites completed_at with now, cancel_task sets
status cancelled, and set_task_in_progress sets status in_progress, so a
terminal task is moved or rewritten rather than left alone or reported
NotFound. -/
theorem C6_terminal_states_unprotected (tasks : List TaskRec)
    (task_id user_id now : Nat) (t : TaskRec)
    (h : get_task_by_id tasks task_id user_id = some t) :
    (complete_task tasks task_id user_id now).1 =
      some { t with status := TaskStatus.done, completed_at := some now } ∧
    (cancel_task tasks task_id user_id).1 =
      some { t with status := TaskStatus.cancelled } ∧
    (set_task_in_progress tasks task_id user_id).1 =
      some { t with status := TaskStatus.in_progress } := by
  refine ⟨?_, ?_, ?_⟩ <;> simp [complete_task, cancel_task, set_task_in_progress, h]

/-- Witness for the amended C6 on the demo done task. -/
theorem C6_terminal_states_unprotected_witness :
    (cancel_task [c6_task] 1 1).1 = some { c6_task with status := TaskStatus.cancelled } :=
  (C6_terminal_states_unprotected [c6_task] 1 1 0 c6_task (by decide)).2.1

/-- C7 counterexample: the one-character title " " has length 1, within the
stated 1..200 range, yet the exposed creation flow rejects it as empty and
creates no task. -/
theorem C7_counterexample :
    (" " : String).length = 1 ∧
    process_task_title " " = Except.error TitleError.empty_title ∧
    create_task_flow 1 " " none TaskPriority.medium none none 1 0 [] =
      Except.error TitleError.empty_title := by
  refine ⟨by decide, rfl, rfl⟩

/-- C7 amended: the creation flow fails, creating no task, whenever the title
is empty, whitespace-only, or longer than 200 characters; every title of
length at most 200 containing some non-whitespace character succeeds, and the
created task carries the stripped title. -/
theorem C7_title_validation_amended (text : String) (user_id id created_at : Nat)
    (description : Option String) (priority : TaskPriority)
    (due_date category_id : Option Nat) (tasks : List TaskRec) :
    (py_strip text = "" →
      create_task_flow user_id text description priority due_date category_id
        id created_at tasks = Except.error TitleError.empty_title) ∧
    (py_strip text ≠ "" → 200 < text.length →
      create_task_flow user_id text description priority due_date category_id
        id created_at tasks = Except.error TitleError.too_long) ∧
    (py_strip text ≠ "" → text.length ≤ 200 →
      create_task_flow user_id text description priority due_date category_id
        id created_at tasks =
        Except.ok
          (create_task user_id (py_strip text) description priority due_date
            category_id id created_at,
           tasks ++ [create_task user_id (py_strip text) description priority due_date
            category_id id created_at])) := by
  refine ⟨?_, ?_, ?_⟩
  · intro h
    simp [create_task_flow, process_task_title, h]
  · intro h hlen
    have hne : ¬ (text = "" ∨ py_strip text = "") := by
      rintro (rfl | hx)
      · exact h rfl
      · exact h hx
    simp [create_task_flow, process_task_title, hne, hlen]
  · intro h hlen
    have hne : ¬ (text = "" ∨ py_strip text = "") := by
      rintro (rfl | hx)
      · exact h rfl
      · exact h hx
    have hlt : ¬ 200 < text.length := by omega
    simp [create_task_flow, process_task_title, hne, hlt]

/-- Witness for the amended C7 on the title used in the spec scenario. -/
theorem C7_title_validation_amended_witness :
    create_task_flow 1 "Ship release" none TaskPriority.high none none 1 0 [] =
      Except.ok
        (create_task 1 (py_strip "Ship release") none TaskPriority.high none none 1 0,
         [] ++ [create_task 1 (py_strip "Ship release") none TaskPriority.high none none 1 0]) :=
  (C7_title_validation_amended "Ship release" 1 1 0 none TaskPriority.high none none
    []).2.2 (by decide) (by decide)

/-- Demo tasks both due on day 10 for user 1: one critical, one medium. -/
def c8_critical_task : TaskRec :=
  { id := 1, user_id := 1, title := "a", description := none,
    priority := TaskPriority.critical, status := TaskStatus.todo, category_id := none,
    created_at := 0, due_date := some 10, completed_at := none, xp_reward := 30,
    is_important := true }

def c8_medium_task : TaskRec :=
  { id := 2, user_id := 1, title := "b", description := none,
    priority := TaskPriority.medium, status := TaskStatus.todo, category_id := none,
    created_at := 0, due_date := some 10, completed_at := none, xp_reward := 10,
    is_important := false }

/-- C8: get_tasks_due_today sorts on the persisted enum member name text
descending, so with a critical task and a medium task both due today the
medium one is returned first and the critical one last — the critical task is
not first. -/
theorem C8_order_puts_medium_before_critical :
    (get_tasks_due_today [c8_critical_task, c8_medium_task] 1 10).map (fun t => t.id) =
      [2, 1] ∧
    (get_tasks_due_today [c8_critical_task, c8_medium_task] 1 10).map (fun t => t.priority) =
      [TaskPriority.medium, TaskPriority.critical] ∧
    ¬ (get_tasks_due_today [c8_critical_task, c8_medium_task] 1 10).map (fun t => t.priority) =
      [TaskPriority.critical, TaskPriority.medium] := by
  decide

/-- C9: after a successful delete_category, the task table keeps exactly the
same rows in the same positions; a row that referenced the deleted category
has category_id cleared to none, every other row keeps its category_id, and
every remaining field of every row is unchanged. -/
theorem C9_delete_category_frame (categories : List CategoryRec) (tasks : List TaskRec)
    (category_id user_id : Nat)
    (h : (delete_category categories tasks category_id user_id).1 = true) :
    ((delete_category categories tasks category_id user_id).2.2).length = tasks.length ∧
    ∀ (i : Nat) (hi : i < tasks.length)
      (hi2 : i < ((delete_category categories tasks category_id user_id).2.2).length),
      (((delete_category categories tasks category_id user_id).2.2).get ⟨i, hi2⟩).category_id =
        (if (tasks.get ⟨i, hi⟩).category_id = some category_id then none
         else (tasks.get ⟨i, hi⟩).category_id) ∧
      (((delete_category categories tasks category_id user_id).2.2).get ⟨i, hi2⟩).id =
        (tasks.get ⟨i, hi⟩).id ∧
      (((delete_category categories tasks category_id user_id).2.2).get ⟨i, hi2⟩).user_id =
        (tasks.get ⟨i, hi⟩).user_id ∧
      (((delete_category categories tasks category_id user_id).2.2).get ⟨i, hi2⟩).title =
        (tasks.get ⟨i, hi⟩).title ∧
      (((delete_category categories tasks category_id user_id).2.2).get ⟨i, hi2⟩).description =
        (tasks.get ⟨i, hi⟩).description ∧
      (((delete_category categories tasks category_id user_id).2.2).get ⟨i, hi2⟩).priority =
        (tasks.get ⟨i, hi⟩).priority ∧
      (((delete_category categories tasks category_id user_id).2.2).get ⟨i, hi2⟩).status =
        (tasks.get ⟨i, hi⟩).status ∧
      (((delete_category categories tasks category_id user_id).2.2).get ⟨i, hi2⟩).created_at =
        (tasks.get ⟨i, hi⟩).created_at ∧
      (((delete_category categories tasks category_id user_id).2.2).get ⟨i, hi2⟩).due_date =
        (tasks.get ⟨i, hi⟩).due_date ∧
      (((delete_category categories tasks category_id user_id).2.2).get ⟨i, hi2⟩).completed_at =
        (tasks.get ⟨i, hi⟩).completed_at ∧
      (((delete_category categories tasks category_id user_id).2.2).get ⟨i, hi2⟩).xp_reward =
        (tasks.get ⟨i, hi⟩).xp_reward ∧
      (((delete_category categories tasks category_id user_id).2.2).get ⟨i, hi2⟩).is_important =
        (tasks.get ⟨i, hi⟩).is_important := by
  cases hfind : get_category_by_id categories category_id user_id with
  | none =>
      rw [delete_category, hfind] at h
      simp at h
  | some c =>
      rw [delete_category, hfind] at h ⊢
      simp only
      constructor
      · simp
      · intro i hi hi2
        have hget : ∀ (hj : i < (tasks.map (clear_category_ref category_id)).length),
            (tasks.map (clear_category_ref category_id)).get ⟨i, hj⟩ =
              clear_category_ref category_id (tasks.get ⟨i, hi⟩) := by
          intro hj
          simp [List.get_eq_getElem]
        rw [hget]
        by_cases hc : (tasks.get ⟨i, hi⟩).category_id = some category_id
        · simp only [List.get_eq_getElem] at hc ⊢
          simp [clear_category_ref, hc]
        · simp only [List.get_eq_getElem] at hc ⊢
          simp [clear_category_ref, hc]

/-- Demo category and a task referencing it. -/
def c9_category : CategoryRec :=
  { id := 1, user_id := 1, name := "Work", color := "#ff0000", created_at := 0 }

def c9_task : TaskRec :=
  { id := 1, user_id := 1, title := "demo", description := none,
    priority := TaskPriority.low, status := TaskStatus.todo, category_id := some 1,
    created_at := 0, due_date := none, completed_at := none, xp_reward := 5,
    is_important := false }

/-- Witness for C9: deleting the owned demo category succeeds and keeps the
single task row. -/
theorem C9_delete_category_frame_witness :
    ((delete_category [c9_category] [c9_task] 1 1).2.2).length = [c9_task].length :=
  (C9_delete_category_frame [c9_category] [c9_task] 1 1 (by decide)).1

/-- C10: update_task on an owned task applies every update_data entry in
order through the hasattr/setattr loop — status, user_id, xp_reward,
created_at and completed_at are all settable with no validation, a key naming
no Task attribute is silently ignored, and in particular one call can change
the owner, or mark the task done while leaving completed_at untouched,
bypassing the completion path. -/
theorem C10_update_task_dynamic_fields (tasks : List TaskRec) (task_id user_id : Nat)
    (update_data : List FieldUpdate) (t : TaskRec)
    (h : get_task_by_id tasks task_id user_id = some t) :
    (update_task tasks task_id user_id update_data).1 =
      some (update_data.foldl set_field t) ∧
    (∀ v, set_field t (FieldUpdate.status v) = { t with status := v }) ∧
    (∀ v, set_field t (FieldUpdate.user_id v) = { t with user_id := v }) ∧
    (∀ v, set_field t (FieldUpdate.xp_reward v) = { t with xp_reward := v }) ∧
    (∀ v, set_field t (FieldUpdate.created_at v) = { t with created_at := v }) ∧
    (∀ v, set_field t (FieldUpdate.completed_at v) = { t with completed_at := v }) ∧
    (∀ k, task_attrs.contains k = false → set_field t (FieldUpdate.unknown_key k) = t) ∧
    (update_task tasks task_id user_id [FieldUpdate.status TaskStatus.done]).1 =
      some { t with status := TaskStatus.done } ∧
    (∀ v, (update_task tasks task_id user_id [FieldUpdate.user_id v]).1 =
      some { t with user_id := v }) := by
  refine ⟨by simp [update_task, h], fun v => rfl, fun v => rfl, fun v => rfl,
    fun v => rfl, fun v => rfl, ?_, ?_, ?_⟩
  · intro k hk
    rw [set_field]
    have hkey : FieldUpdate.key (FieldUpdate.unknown_key k) = k := rfl
    rw [hkey, hk]
    simp
  · simp [update_task, h]
    rfl
  · intro v
    simp [update_task, h]
    rfl

/-- Demo task for the update flow. -/
def c10_task : TaskRec :=
  { id := 1, user_id := 1, title := "demo", description := none,
    priority := TaskPriority.low, status := TaskStatus.todo, category_id := none,
    created_at := 0, due_date := none, completed_at := none, xp_reward := 5,
    is_important := false }

/-- Witness for C10: one update_task call moves the demo task to owner 99. -/
theorem C10_update_task_dynamic_fields_witness :
    (update_task [c10_task] 1 1 [FieldUpdate.user_id 99]).1 =
      some { c10_task with user_id := 99 } :=
  (C10_update_task_dynamic_fields [c10_task] 1 1 [FieldUpdate.user_id 99] c10_task
    (by decide)).2.2.2.2.2.2.2.2 99

lemma unlock_achievement_nodup (st : AState) (aid : Nat) (h : st.unlocked.Nodup) :
    ((unlock_achievement st aid).2).unlocked.Nodup := by
  unfold unlock_achievement
  by_cases hc : aid ∈ st.unlocked
  · simp [hc, h]
  · cases hfind : st.achievements.find? (fun a => a.id == aid) with
    | none => simp [hc, hfind, h]
    | some a =>
        simp only [hc, if_neg, hfind, ite_false]
        simp [List.nodup_append, h, hc]

lemma check_loop_nodup (ids : List Nat) (l : List Achievement) :
    ∀ (newly : List Achievement) (st : AState), st.unlocked.Nodup →
      ((check_loop ids l (newly, st)).2).unlocked.Nodup := by
  induction l with
  | nil =>
      intro newly st h
      simpa [check_loop] using h
  | cons a rest ih =>
      intro newly st h
      rw [check_loop]
      by_cases h1 : a.id ∈ ids
      · rw [if_pos h1]
        exact ih newly st h
      · rw [if_neg h1]
        by_cases h2 : check_achievement_condition st a = true
        · rw [if_pos h2]
          exact ih (newly ++ [a]) ((unlock_achievement st a.id).2)
            (unlock_achievement_nodup st a.id h)
        · rw [if_neg h2]
          exact ih newly st h

lemma check_loop_newly_mem (ids : List Nat) (l : List Achievement) :
    ∀ (newly : List Achievement) (st : AState) (x : Achievement),
      x ∈ (check_loop ids l (newly, st)).1 → x ∈ newly ∨ ¬ x.id ∈ ids := by
  induction l with
  | nil =>
      intro newly st x hx
      simp [check_loop] at hx
      exact Or.inl hx
  | cons a rest ih =>
      intro newly st x hx
      rw [check_loop] at hx
      by_cases h1 : a.id ∈ ids
      · rw [if_pos h1] at hx
        exact ih newly st x hx
      · rw [if_neg h1] at hx
        by_cases h2 : check_achievement_condition st a = true
        · rw [if_pos h2] at hx
          rcases ih (newly ++ [a]) ((unlock_achievement st a.id).2) x hx with hmem | hid
          · rcases List.mem_append.mp hmem with hn | ha
            · exact Or.inl hn
            · right
              have hxa : x = a := by simpa using ha
              rw [hxa]
              exact h1
          · exact Or.inr hid
        · rw [if_neg h2] at hx
          exact ih newly st x hx

/-- C2 amended: the at-most-one invariant holds — a duplicate-free unlocked
set stays duplicate-free across check_achievements, and no achievement
already unlocked at the start of a call is returned or re-granted by it — but
a second back-to-back call need not return the empty list, because bonus xp
granted during the first call can raise the level and newly satisfy a level
condition (see the counterexample). -/
theorem C2_no_duplicate_unlocks (st : AState) (h : st.unlocked.Nodup) :
    ((check_achievements st).2).unlocked.Nodup ∧
    ∀ x ∈ (check_achievements st).1, ¬ x.id ∈ st.unlocked := by
  constructor
  · exact check_loop_nodup st.unlocked st.achievements [] st h
  · intro x hx
    rcases check_loop_newly_mem st.unlocked st.achievements [] st x hx with hmem | hid
    · simp at hmem
    · exact hid

/-- Demo achievement state: a done task, a level-2 achievement listed first
and a 100-xp first-task achievement listed second, nothing unlocked yet, user
at level 1 with experience 0. -/
def c2_done_task : TaskRec :=
  { id := 1, user_id := 1, title := "t", description := none,
    priority := TaskPriority.medium, status := TaskStatus.done, category_id := none,
    created_at := 0, due_date := none, completed_at := some 1, xp_reward := 10,
    is_important := false }

def c2_level_ach : Achievement :=
  { id := 1, name := "Level 2", condition_type := "level", condition_value := 2,
    xp_reward := 0 }

def c2_tasks_ach : Achievement :=
  { id := 2, name := "First task", condition_type := "tasks_count",
    condition_value := 1, xp_reward := 100 }

def c2_state : AState :=
  { user_id := 1, user := { level := 1, experience := 0, completed_tasks := 1 },
    tasks := [c2_done_task], achievements := [c2_level_ach, c2_tasks_ach],
    unlocked := [] }

/-- C2 counterexample: the first check_achievements call unlocks the
first-task achievement, whose 100 bonus xp lifts the user to level 2; the
second call, with no intervening state change, then returns the level-2
achievement instead of the empty list. -/
theorem C2_counterexample :
    (check_achievements c2_state).1 = [c2_tasks_ach] ∧
    ((check_achievements c2_state).2).user.level = 2 ∧
    (check_achievements (check_achievements c2_state).2).1 = [c2_level_ach] ∧
    ¬ (check_achievements (check_achievements c2_state).2).1 = [] := by decide

/-- Witness for the amended C2 on the demo state. -/
theorem C2_no_duplicate_unlocks_witness :
    ((check_achievements c2_state).2).unlocked.Nodup :=
  (C2_no_duplicate_unlocks c2_state (by decide)).1

end TaskBot
